import Mathlib

/-!
Verification of the experiment2 self-correcting code-generation agent.

Shallow embedding of:
- `src/experiment2/codebase/project_manager.py` (ProjectManager: create_project,
  write_file, read_file, run_command, cleanup) — the same class is inlined
  verbatim in the two `succes/` agent scripts;
- `src/experiment2/succes/qwen3-coder:latest.py` (call_ollama_api, the helper
  generators, analyze_test_failure, generate_code_and_tests);
- `src/experiment2/succes/phi4-reasoning:14b-plus-q8_0.py`
  (CodingAgentV2.execute_coding_agent_v2 — its generate/test/classify/repair
  loop is line-for-line the same loop as in qwen3-coder:latest.py);
- `src/experiment2/fail/qwen3:30b-a3b.py` (its analyze_test_failure variant).

External effects (the Ollama HTTP service, the filesystem, subprocess
execution) are modelled by oracle values passed in explicitly; Python
exceptions are modelled with `Except`.
-/

namespace Experiment2

/-- Model of a Python exception escaping a modelled call. -/
inductive PyExn where
  | runtimeError (msg : String)
  | valueError (msg : String)
  | other (msg : String)
deriving Repr, DecidableEq

/-- State of one `ProjectManager` instance together with the directory it
manages.  `dirExists` models `os.path.exists(self.base_dir)`; `files` models
the directory contents (name, content); `current_dir` is the instance
attribute of the same name. -/
structure PMState where
  base_dir : String
  dirExists : Bool
  current_dir : Option String
  files : List (String × String)
deriving Repr, DecidableEq

/-- Python truthiness test used by `if not self.current_dir:`
(`None` and the empty string are falsy). -/
def falsyDir : Option String → Bool
  | none => true
  | some s => s == ""

/-- Python truthiness of an optional string (`if initial_code and ...`). -/
def truthyStr : Option String → Bool
  | none => false
  | some s => !(s == "")

/-- `ProjectManager.create_project`: removes a stale directory if present,
makes a fresh empty one, and records it in `current_dir`. -/
def create_project (s : PMState) : PMState :=
  { s with dirExists := true, current_dir := some s.base_dir, files := [] }

def notInitMsg : String := "No project directory exists. Call create_project() first."

/-- `ProjectManager.write_file`: raises `RuntimeError` when `current_dir` is
falsy, otherwise (over)writes the named file inside the directory. -/
def write_file (s : PMState) (file_name content : String) : Except PyExn PMState :=
  if falsyDir s.current_dir then
    .error (.runtimeError notInitMsg)
  else
    .ok { s with files := (file_name, content) :: s.files.filter (fun p => p.1 != file_name) }

/-- `ProjectManager.read_file`: raises `RuntimeError` when `current_dir` is
falsy, `FileNotFoundError` when the file is absent. -/
def read_file (s : PMState) (file_name : String) : Except PyExn String :=
  if falsyDir s.current_dir then
    .error (.runtimeError notInitMsg)
  else
    match s.files.lookup file_name with
    | some content => .ok content
    | none => .error (.other ("File not found: " ++ file_name))

/-- Outcome of the underlying `subprocess.run` call, as seen by
`ProjectManager.run_command`'s `try:` block: normal completion,
`subprocess.TimeoutExpired`, or any other exception (message attached). -/
inductive ExecOutcome where
  | completed (stdout stderr : String) (returncode : Int)
  | timedOut
  | execFailed (details : String)
deriving Repr, DecidableEq

/-- The (stdout, stderr, returncode) triple produced by the body of
`ProjectManager.run_command` for each subprocess outcome. -/
def execResult : ExecOutcome → String × String × Int
  | .completed out err code => (out, err, code)
  | .timedOut => ("", "Error: Command timed out.", 1)
  | .execFailed details => ("", "Error: Failed to execute command. Details: " ++ details, 1)

/-- `ProjectManager.run_command`: raises `RuntimeError` when `current_dir` is
falsy; otherwise returns the triple, converting a timeout or any execution
exception into a failure triple rather than propagating it. -/
def run_command (s : PMState) (outcome : ExecOutcome) : Except PyExn (String × String × Int) :=
  if falsyDir s.current_dir then
    .error (.runtimeError notInitMsg)
  else
    .ok (execResult outcome)

/-- `ProjectManager.cleanup`: when `base_dir` is truthy and the directory
exists, removes it and clears `current_dir`; otherwise does nothing. -/
def cleanup (s : PMState) : PMState :=
  if s.base_dir != "" && s.dirExists then
    { s with dirExists := false, current_dir := none, files := [] }
  else s

/-- The whitespace characters removed by Python's `str.strip()`. -/
def isPyWhitespace (c : Char) : Bool :=
  c == ' ' || c == '\t' || c == '\n' || c == '\r' || c == '\x0b' || c == '\x0c'

def dropLeadingWs : List Char → List Char
  | [] => []
  | c :: rest => if isPyWhitespace c then dropLeadingWs rest else c :: rest

/-- Python's `str.strip()` (strip leading and trailing whitespace). -/
def pyStrip (s : String) : String :=
  String.mk ((dropLeadingWs ((dropLeadingWs s.data).reverse)).reverse)

/-- Python's `str.lower()` restricted to ASCII, which covers every string
the agents compare after lowering. -/
def pyLower (s : String) : String :=
  String.mk (s.data.map Char.toLower)

/-- `analyze_test_failure` of the `succes/` agents, as a function of the raw
analyzer-model response: `.strip().lower()` then keep only the two
actionable labels, anything else becomes `cannot_determine`. -/
def analyze_test_failure (rawResponse : String) : String :=
  let analysis_result := pyLower (pyStrip rawResponse)
  if analysis_result == "code_bug" || analysis_result == "test_bug" then analysis_result
  else "cannot_determine"

def hasSubList : List Char → List Char → Bool
  | [], needle => decide (needle = [])
  | c :: rest, needle =>
    if (c :: rest).take needle.length = needle then true else hasSubList rest needle

/-- Python's substring test `needle in hay`. -/
def containsSub (hay needle : String) : Bool :=
  hasSubList hay.data needle.data

/-- `analyze_test_failure` of `fail/qwen3:30b-a3b.py`:
`return "code_bug" if "code" in result else "test_bug"`. -/
def analyze_test_failure_30b (rawResponse : String) : String :=
  let result := pyLower (pyStrip rawResponse)
  if containsSub result "code" then "code_bug" else "test_bug"

/-- Outcome of one `requests.post` call to the Ollama API: a successful
response body, a `requests.exceptions.RequestException` (caught by
`call_ollama_api`), or any other exception (propagates). -/
inductive ApiOutcome where
  | response (content : String)
  | requestError (details : String)
  | raised (e : PyExn)
deriving Repr, DecidableEq

/-- The configured model keys (`MODELS` dict of qwen3-coder:latest.py;
`CODING_AGENT_CONFIG["MODELS"]` of the phi4 script — same keys). -/
def MODELS : List String := ["coder", "tester", "debugger", "analyzer", "planner"]

/-- Every configured entry names the same model. -/
def modelName : String := "qwen3-coder:latest"

/-- `call_ollama_api`: raises `ValueError` for an unknown key; returns the
stripped response content on success; on a `RequestException` it RETURNS the
error message as ordinary text (it does not raise); any other exception
propagates. -/
def call_ollama_api (outcome : ApiOutcome) (model_key : String) : Except PyExn String :=
  if !(MODELS.contains model_key) then
    .error (.valueError ("Model key '" ++ model_key ++ "' not found in config."))
  else
    match outcome with
    | .response content => .ok (pyStrip content)
    | .requestError details =>
        .ok ("Error: Failed to connect to '" ++ modelName ++ "' API. Details: " ++ details)
    | .raised e => .error e

/-- The nine characters of the first regex alternative. -/
def fencePyChars : List Char := "```python".toList

/-- The three characters of the second regex alternative. -/
def fenceChars : List Char := "```".toList

/-- Left-to-right scan of `re.sub(r'```python|```', '', raw)`: at each
position try the alternative `\x60\x60\x60python` first, then `\x60\x60\x60`. -/
def subFences : Nat → List Char → List Char
  | 0, cs => cs
  | _ + 1, [] => []
  | fuel + 1, c :: rest =>
    if (c :: rest).take 9 = fencePyChars then subFences fuel ((c :: rest).drop 9)
    else if (c :: rest).take 3 = fenceChars then subFences fuel ((c :: rest).drop 3)
    else c :: subFences fuel rest

/-- `re.sub(r'```python|```', '', raw).strip()` — the post-processing applied
to every code-bearing model response. -/
def strippedFences (raw : String) : String :=
  pyStrip (String.mk (subFences raw.toList.length raw.toList))

/-- `generate_code` (and `_generate_code`): coder-model call, then fence
stripping.  The mode/seed arguments only change the prompt text sent to the
model, which is opaque here. -/
def generate_code (o : ApiOutcome) : Except PyExn String :=
  match call_ollama_api o "coder" with
  | .error e => .error e
  | .ok raw_code => .ok (strippedFences raw_code)

/-- `generate_test_plan`: planner-model call, returned as-is. -/
def generate_test_plan (o : ApiOutcome) : Except PyExn String :=
  call_ollama_api o "planner"

/-- `generate_unit_tests`: tester-model call, then fence stripping. -/
def generate_unit_tests (o : ApiOutcome) : Except PyExn String :=
  match call_ollama_api o "tester" with
  | .error e => .error e
  | .ok raw => .ok (strippedFences raw)

/-- `debug_code`: debugger-model call, then fence stripping. -/
def debug_code (o : ApiOutcome) : Except PyExn String :=
  match call_ollama_api o "debugger" with
  | .error e => .error e
  | .ok raw => .ok (strippedFences raw)

/-- `analyze_test_failure` including its analyzer-model call
(`call_ollama_api(...).strip().lower()` then normalization). -/
def classify_failure (o : ApiOutcome) : Except PyExn String :=
  match call_ollama_api o "analyzer" with
  | .error e => .error e
  | .ok raw => .ok (analyze_test_failure raw)

/-- `MAX_DEBUG_ATTEMPTS` (both agent scripts). -/
def MAX_DEBUG_ATTEMPTS : Nat := 3

/-- `MAX_TEST_REGEN_ATTEMPTS` (both agent scripts). -/
def MAX_TEST_REGEN_ATTEMPTS : Nat := 2

/-- `code_file` as fixed by `generate_code_and_tests`. -/
def code_file : String := "generated_module.py"

/-- `test_file = f"test_{code_file}"`. -/
def test_file : String := "test_" ++ code_file

/-- One recorded loop iteration: the code and tests in play, the execution
triple, and the classification when the iteration failed. -/
structure Attempt where
  index : Nat
  code : String
  tests : String
  stdout : String
  stderr : String
  returncode : Int
  classification : Option String
deriving Repr, DecidableEq

/-- How the loop stopped: the `break` on `returncode == 0`, the `break` in
the final `else:` arm, or the `for` range running out. -/
inductive StopCause where
  | passedStop
  | breakStop
  | rangeExhausted
deriving Repr, DecidableEq

/-- The loop's outcome.  `attempts`, `repairs`, `regens` and `stop` are
instrumentation recording which iterations ran and which branch each one
took; the remaining fields are the Python locals of the same names at loop
exit. -/
structure LoopResult where
  attempts : List Attempt
  test_passed : Bool
  generated_code : String
  generated_tests : String
  analysis_result : String
  test_output : String
  repairs : Nat
  regens : Nat
  stop : StopCause
deriving Repr, DecidableEq

/-- The loop-carried Python locals plus the ProjectManager state and the
instrumentation accumulators (`attempts` is kept reversed). -/
structure LoopState where
  pm : PMState
  generated_code : String
  generated_tests : String
  analysis_result : String
  test_output : String
  repairs : Nat
  regens : Nat
  attempts : List Attempt

/-- Dummy result used to read a `LoopResult` out of an exception value. -/
def junkLoopResult : LoopResult := ⟨[], false, "", "", "", "", 0, 0, .breakStop⟩

def getLoop : Except PyExn LoopResult → LoopResult
  | .ok r => r
  | .error _ => junkLoopResult

def optLoop : Option LoopResult → LoopResult
  | some r => r
  | none => junkLoopResult

/-- The external world for one run: the initial filesystem state, each
model call's outcome, and each subprocess invocation's outcome.  Per-attempt
responses are indexed by the loop's attempt counter; the runner and the
analyzer additionally see the current code and the test text / failure
output, exactly the data the Python call sites pass. -/
structure RunOracle where
  staleDir : Bool
  createExn : Option PyExn
  coder : ApiOutcome
  planner : ApiOutcome
  tester : Nat → ApiOutcome
  runner : String → String → Nat → ExecOutcome
  analyzer : String → String → Nat → ApiOutcome
  debugger : String → String → Nat → ApiOutcome
  copyExn : Option PyExn

def mkResult (st : LoopState) (passed : Bool) (stop : StopCause) : LoopResult :=
  ⟨st.attempts.reverse, passed, st.generated_code, st.generated_tests,
    st.analysis_result, st.test_output, st.repairs, st.regens, stop⟩

/-- The `for attempt in range(MAX_DEBUG_ATTEMPTS + MAX_TEST_REGEN_ATTEMPTS):`
loop shared (line for line) by `generate_code_and_tests`
(qwen3-coder:latest.py, lines 309-337) and `execute_coding_agent_v2`
(phi4-reasoning:14b-plus-q8_0.py, lines 246-275), with the two limits as
parameters.  `remaining` is the number of range elements left and `attempt`
the current index.  Each iteration: generate tests, write them, run pytest;
on exit status 0 record the attempt and stop; otherwise classify the failure
and branch exactly as the source does, comparing the SHARED `attempt` index
against each limit. -/
def loopGo (o : RunOracle) (maxDebug maxRegen : Nat) :
    Nat → Nat → LoopState → Except PyExn LoopResult × PMState
  | 0, _, st => (.ok (mkResult st false .rangeExhausted), st.pm)
  | r + 1, attempt, st =>
    match generate_unit_tests (o.tester attempt) with
    | .error e => (.error e, st.pm)
    | .ok tests =>
      match write_file st.pm test_file tests with
      | .error e => (.error e, st.pm)
      | .ok pm1 =>
        match run_command pm1 (o.runner st.generated_code tests attempt) with
        | .error e => (.error e, pm1)
        | .ok (out, err, rc) =>
          if rc = 0 then
            let att : Attempt := ⟨attempt, st.generated_code, tests, out, err, rc, none⟩
            let st2 : LoopState :=
              { st with pm := pm1, generated_tests := tests, test_output := out, attempts := att :: st.attempts }
            (.ok (mkResult st2 true .passedStop), pm1)
          else
            match classify_failure (o.analyzer st.generated_code (out ++ err) attempt) with
            | .error e => (.error e, pm1)
            | .ok a =>
              let att : Attempt := ⟨attempt, st.generated_code, tests, out, err, rc, some a⟩
              if a = "code_bug" ∧ attempt < maxDebug then
                match debug_code (o.debugger st.generated_code (out ++ err) attempt) with
                | .error e => (.error e, pm1)
                | .ok newCode =>
                  match write_file pm1 code_file newCode with
                  | .error e => (.error e, pm1)
                  | .ok pm2 =>
                    loopGo o maxDebug maxRegen r (attempt + 1)
                      ⟨pm2, newCode, tests, a, out ++ err, st.repairs + 1, st.regens, att :: st.attempts⟩
              else if a = "test_bug" ∧ attempt < maxRegen then
                loopGo o maxDebug maxRegen r (attempt + 1)
                  ⟨pm1, st.generated_code, tests, a, out ++ err, st.repairs, st.regens + 1, att :: st.attempts⟩
              else
                let st2 : LoopState :=
                  ⟨pm1, st.generated_code, tests, a, out ++ err, st.repairs, st.regens, att :: st.attempts⟩
                (.ok (mkResult st2 false .breakStop), pm1)

/-- The ProjectManager each top-level run constructs
(`ProjectManager(base_dir="temp_coding_project")`); a stale directory from a
crashed prior run may exist. -/
def initialPM (o : RunOracle) : PMState :=
  { base_dir := "temp_coding_project", dirExists := o.staleDir,
    current_dir := none, files := [] }

/-- The loop-entry locals of both agents: `generated_tests` not yet assigned
(modelled as `""`), `test_output = ""`, `analysis_result = 'code_bug'`
(the source's written default assumption). -/
def initLoopState (pm : PMState) (code : String) : LoopState :=
  ⟨pm, code, "", "code_bug", "", 0, 0, []⟩

/-- The `try:` body of `generate_code_and_tests`
(qwen3-coder:latest.py, lines 290-343): create the project, generate and
write the code, auto-generate the test plan when none was supplied, then run
the loop.  Returns the loop outcome (or the first escaping exception)
together with the ProjectManager state reached. -/
def runBody (o : RunOracle) (test_plan : Option String) :
    Except PyExn LoopResult × PMState :=
  let pm0 := create_project (initialPM o)
  match o.createExn with
  | some e => (.error e, pm0)
  | none =>
    match generate_code o.coder with
    | .error e => (.error e, pm0)
    | .ok generated_code =>
      match write_file pm0 code_file generated_code with
      | .error e => (.error e, pm0)
      | .ok pm1 =>
        match (if truthyStr test_plan then .ok (test_plan.getD "")
               else generate_test_plan o.planner : Except PyExn String) with
        | .error e => (.error e, pm1)
        | .ok _plan =>
          loopGo o MAX_DEBUG_ATTEMPTS MAX_TEST_REGEN_ATTEMPTS
            (MAX_DEBUG_ATTEMPTS + MAX_TEST_REGEN_ATTEMPTS) 0
            (initLoopState pm1 generated_code)

/-- `generate_code_and_tests` (qwen3-coder:latest.py, lines 270-371): the
`try:` body, then the two `shutil.copy` calls (which may raise), the
`except ... raise` arm re-raising any exception, and the `finally:` arm
running `project_manager.cleanup()` on every exit path.  Returns the Python
return value `(generated_code, generated_tests)` (or the escaping exception)
and the final ProjectManager state. -/
def generate_code_and_tests (o : RunOracle) (test_plan : Option String) :
    Except PyExn (String × String) × PMState :=
  let bodyRes := runBody o test_plan
  let res : Except PyExn (String × String) :=
    match bodyRes.1 with
    | .error e => .error e
    | .ok r =>
      match o.copyExn with
      | some e => .error e
      | none => .ok (r.generated_code, r.generated_tests)
  (res, cleanup bodyRes.2)

/-- Observable outcome of `execute_coding_agent_v2`: which prompt-building
branch the seed-code check took, the exception swallowed by its
`except Exception` arm (if any), the loop outcome when the body completed,
and the final ProjectManager state (after the `finally:` cleanup). -/
structure AgentOutcome where
  seedPromptUsed : Bool
  caught : Option PyExn
  test_passed : Bool
  result : Option LoopResult
  pm : PMState
deriving Repr, DecidableEq

/-- `CodingAgentV2.execute_coding_agent_v2`
(phi4-reasoning:14b-plus-q8_0.py, lines 228-300): inside `try:`, create the
project FIRST, then check `if initial_code and mode in ['refactor','debug']`
to pick the prompt (a missing seed silently falls through to the plain
branch — there is no error path for it), generate and write the code, run the
shared loop, copy the final file; `except Exception` swallows any exception
into the answer text; `finally:` runs cleanup.  The `language`, `code_file`,
`prompt` and `test_plan` parameters only shape prompt text and file names and
are fixed to the module's defaults here. -/
def execute_coding_agent_v2 (o : RunOracle) (mode : String)
    (initial_code : Option String) : AgentOutcome :=
  let pm0 := create_project (initialPM o)
  let useSeed := truthyStr initial_code && (mode == "refactor" || mode == "debug")
  let bodyRes : Except PyExn LoopResult × PMState :=
    match o.createExn with
    | some e => (.error e, pm0)
    | none =>
      match generate_code o.coder with
      | .error e => (.error e, pm0)
      | .ok generated_code =>
        match write_file pm0 code_file generated_code with
        | .error e => (.error e, pm0)
        | .ok pm1 =>
          loopGo o MAX_DEBUG_ATTEMPTS MAX_TEST_REGEN_ATTEMPTS
            (MAX_DEBUG_ATTEMPTS + MAX_TEST_REGEN_ATTEMPTS) 0
            (initLoopState pm1 generated_code)
  let post : Option PyExn × Bool × Option LoopResult :=
    match bodyRes.1 with
    | .error e => (some e, false, none)
    | .ok r =>
      match o.copyExn with
      | some e => (some e, r.test_passed, some r)
      | none => (none, r.test_passed, some r)
  ⟨useSeed, post.1, post.2.1, post.2.2, cleanup bodyRes.2⟩

/-- The failure message selection of both agents
(`analysis_message = ... if analysis_result == 'code_bug' else ...`). -/
def analysis_message (r : LoopResult) : String :=
  if r.analysis_result == "code_bug" then
    "I was unable to fix a bug in the code within the allowed attempts."
  else
    "The analysis suggests the failure may be due to a flaw in the generated tests."

/-! ### Concrete stub oracles for the specified scenarios -/

/-- A freshly created ProjectManager state, as every run has after
`create_project()`. -/
def readyPM : PMState :=
  create_project { base_dir := "temp_coding_project", dirExists := false,
                   current_dir := none, files := [] }

/-- A test runner whose pytest invocation always fails. -/
def failRunner : String → String → Nat → ExecOutcome := fun _ _ _ => .completed "" "1 failed" 1

/-- Stub world for scenario C of the spec: generator and tester respond
normally, every test run fails, the classifier answers `test_bug` on attempt
index 0 and `code_bug` afterwards. -/
def scenarioCOracle : RunOracle :=
  { staleDir := false, createExn := none,
    coder := .response "def f(): return 1",
    planner := .response "plan",
    tester := fun _ => .response "def test_f(): assert False",
    runner := failRunner,
    analyzer := fun _ _ i => .response (if i = 0 then "test_bug" else "code_bug"),
    debugger := fun _ _ i => .response ("fix " ++ toString i),
    copyExn := none }

/-- The mirror image of scenario C: the classifier answers `code_bug` on
attempt index 0 and `test_bug` afterwards. -/
def scenarioCMirrorOracle : RunOracle :=
  { scenarioCOracle with
    analyzer := fun _ _ i => .response (if i = 0 then "code_bug" else "test_bug") }

/-- Stub world for scenario B of the spec: every test run fails and the
classifier always answers `code_bug`. -/
def scenarioBOracle : RunOracle :=
  { scenarioCOracle with analyzer := fun _ _ _ => .response "code_bug" }

/-- Stub world in which the generation service is unreachable: every model
call raises a `requests` connection error, and pytest (run on the resulting
artifacts) fails. -/
def downOracle : RunOracle :=
  { staleDir := false, createExn := none,
    coder := .requestError "Connection refused",
    planner := .response "plan",
    tester := fun _ => .requestError "Connection refused",
    runner := fun _ _ _ => .completed "" "ERROR collecting" 1,
    analyzer := fun _ _ _ => .requestError "Connection refused",
    debugger := fun _ _ _ => .requestError "Connection refused",
    copyExn := none }

/-- The text `call_ollama_api` returns when the connection fails. -/
def connErrText : String :=
  "Error: Failed to connect to 'qwen3-coder:latest' API. Details: Connection refused"

/-- Stub world for scenario A / scenario E: the first generated code passes
its tests immediately. -/
def happyOracle : RunOracle :=
  { staleDir := false, createExn := none,
    coder := .response "ok code",
    planner := .response "plan",
    tester := fun _ => .response "tests",
    runner := fun _ _ _ => .completed "1 passed" "" 0,
    analyzer := fun _ _ _ => .response "code_bug",
    debugger := fun _ _ _ => .response "fix",
    copyExn := none }

/-- Stub world for scenario D: the sandboxed pytest run exceeds its timeout;
the classifier (fed the timeout stderr) answers `cannot_determine`. -/
def timeoutOracle : RunOracle :=
  { staleDir := false, createExn := none,
    coder := .response "looping code",
    planner := .response "plan",
    tester := fun _ => .response "tests",
    runner := fun _ _ _ => .timedOut,
    analyzer := fun _ _ _ => .response "cannot_determine",
    debugger := fun _ _ _ => .response "fix",
    copyExn := none }

/-- A ProjectManager state with a live directory and one written file, as
reached by `create_project()` followed by `write_file`. -/
def liveState : PMState :=
  { base_dir := "temp_project", dirExists := true,
    current_dir := some "temp_project", files := [("generated_module.py", "print(1)")] }

/-- The loop of scenario C, run with limits (1, 1) as the scenario
stipulates: `range(1 + 1)` iterations starting at attempt index 0. -/
def scenarioCRun : LoopResult :=
  getLoop (loopGo scenarioCOracle 1 1 2 0 (initLoopState readyPM "c0")).1

/-- The mirrored scenario-C loop (classifier answers `code_bug` first),
limits (1, 1). -/
def scenarioCMirrorRun : LoopResult :=
  getLoop (loopGo scenarioCMirrorOracle 1 1 2 0 (initLoopState readyPM "c0")).1

/-- The loop of scenario B, run with limits (2, 1): `range(2 + 1)`
iterations starting at attempt index 0. -/
def scenarioBRun : LoopResult :=
  getLoop (loopGo scenarioBOracle 2 1 3 0 (initLoopState readyPM "buggy")).1

/-- A full `generate_code_and_tests` run against the unreachable service
(test plan supplied by the caller). -/
def downRun : Except PyExn (String × String) × PMState :=
  generate_code_and_tests downOracle (some "plan")

/-- The loop outcome inside that run. -/
def downLoop : LoopResult := getLoop (runBody downOracle (some "plan")).1

/-- Scenario E's call: `execute_coding_agent_v2` in `debug` mode with no
seed code, against a benign stub world. -/
def debugNoSeedRun : AgentOutcome := execute_coding_agent_v2 happyOracle "debug" none

/-- The loop of scenario D: pytest times out on the first attempt, run with
the source's limits. -/
def timeoutRun : LoopResult :=
  getLoop (loopGo timeoutOracle MAX_DEBUG_ATTEMPTS MAX_TEST_REGEN_ATTEMPTS
    (MAX_DEBUG_ATTEMPTS + MAX_TEST_REGEN_ATTEMPTS) 0
    (initLoopState readyPM "looping code")).1

/-! ### Helper lemmas -/

theorem write_file_ok_base_dir {s : PMState} {n c : String} {t : PMState}
    (h : write_file s n c = Except.ok t) : t.base_dir = s.base_dir := by
  unfold write_file at h
  split at h
  · exact Except.noConfusion h
  · cases h
    rfl

theorem loopGo_base_dir (o : RunOracle) (maxDebug maxRegen : Nat) :
    ∀ (remaining attempt : Nat) (st : LoopState),
      ((loopGo o maxDebug maxRegen remaining attempt st).2).base_dir = st.pm.base_dir := by
  intro remaining
  induction remaining with
  | zero =>
    intro attempt st
    rfl
  | succ r ih =>
    intro attempt st
    simp only [loopGo]
    rcases hT : generate_unit_tests (o.tester attempt) with eT | tests
    · simp [hT]
    · simp only [hT]
      rcases hW : write_file st.pm test_file tests with eW | pm1
      · simp [hW]
      · have hb1 : pm1.base_dir = st.pm.base_dir := write_file_ok_base_dir hW
        simp only [hW]
        rcases hR : run_command pm1 (o.runner st.generated_code tests attempt) with eR | trip
        · simp [hR, hb1]
        · obtain ⟨out, err, rc⟩ := trip
          simp only [hR]
          by_cases hrc : rc = 0
          · simp [hrc, hb1]
          · simp only [hrc, if_neg, ite_false]
            rcases hA : classify_failure (o.analyzer st.generated_code (out ++ err) attempt)
              with eA | a
            · simp [hA, hb1]
            · simp only [hA]
              by_cases hcb : a = "code_bug" ∧ attempt < maxDebug
              · simp only [hcb, if_pos]
                rcases hD : debug_code (o.debugger st.generated_code (out ++ err) attempt)
                  with eD | newCode
                · simp [hD, hb1]
                · simp only [hD]
                  rcases hW2 : write_file pm1 code_file newCode with eW2 | pm2
                  · simp [hW2, hb1]
                  · have hb2 : pm2.base_dir = pm1.base_dir := write_file_ok_base_dir hW2
                    simp [hW2, ih, hb2, hb1]
              · by_cases htb : a = "test_bug" ∧ attempt < maxRegen
                · simp [hcb, htb, ih, hb1]
                · simp [hcb, htb, hb1]

theorem cleanup_dirExists_false {s : PMState} (h : (s.base_dir == "") = false) :
    (cleanup s).dirExists = false := by
  unfold cleanup
  split
  · rfl
  · rename_i hc
    cases hd : s.dirExists
    · rfl
    · exact absurd (by simp [bne, h, hd]) hc

theorem runBody_base_dir (o : RunOracle) (tp : Option String) :
    ((runBody o tp).2).base_dir = "temp_coding_project" := by
  unfold runBody
  rcases hC : o.createExn with _ | e
  · simp only [hC]
    rcases hG : generate_code o.coder with eG | code0
    · simp [hG, create_project, initialPM]
    · simp only [hG]
      rcases hW : write_file (create_project (initialPM o)) code_file code0 with eW | pm1
      · simp [hW, create_project, initialPM]
      · have hb1 : pm1.base_dir = "temp_coding_project" := write_file_ok_base_dir hW
        simp only [hW]
        rcases hP : (if truthyStr tp then .ok (tp.getD "")
            else generate_test_plan o.planner : Except PyExn String) with eP | plan
        · simp [hP, hb1]
        · simp [hP, loopGo_base_dir, initLoopState, hb1]
  · simp [hC, create_project, initialPM]

/-! ### Claims -/

/-- Claim C1, counterexample.  Running the source's loop with limits (1, 1)
and a classifier answering `test_bug` on attempt 1 and `code_bug` on attempt
2 (scenario C of the claim) records only 2 attempts and performs 0 code
repairs — not "both branches consumed once" and not "stops only after
attempt 3": the `test_bug` iteration advanced the single shared `attempt`
index past the code-repair limit, so the `code_bug` classification on
attempt 2 was refused repair even though no repair had been performed. -/
theorem c1_counterexample :
    scenarioCRun.attempts.length = 2 ∧ scenarioCRun.repairs = 0 := by
  constructor <;> rfl

/-- Claim C1, amended.  The loop keeps no per-branch counters: its single
shared `attempt` index (bounded by the sum of the two limits) is compared
against each limit, so an iteration spent on either branch consumes the
other branch's headroom.  With limits (1, 1): classifier `test_bug` then
`code_bug` stops after attempt 2 with one test regeneration and no repair;
symmetrically, `code_bug` then `test_bug` stops after attempt 2 with one
repair and no test regeneration. -/
theorem c1_amended_shared_index :
    (scenarioCRun.attempts.length = 2 ∧ scenarioCRun.repairs = 0 ∧
      scenarioCRun.regens = 1 ∧ scenarioCRun.test_passed = false ∧
      scenarioCRun.stop = .breakStop ∧ scenarioCRun.analysis_result = "code_bug") ∧
    (scenarioCMirrorRun.attempts.length = 2 ∧ scenarioCMirrorRun.repairs = 1 ∧
      scenarioCMirrorRun.regens = 0 ∧ scenarioCMirrorRun.test_passed = false ∧
      scenarioCMirrorRun.stop = .breakStop) := by
  exact ⟨⟨rfl, rfl, rfl, rfl, rfl, rfl⟩, ⟨rfl, rfl, rfl, rfl, rfl⟩⟩

/-- Claim C2.  For every oracle world (including worlds in which project
creation, any model call, any file write, the pytest run, or the final copy
raises) and every test-plan argument, the sandbox directory does not exist
after `generate_code_and_tests` finishes: the `finally:` arm runs
`project_manager.cleanup()` on every exit path, and the manager's `base_dir`
is the truthy constant `"temp_coding_project"`, so `cleanup` removes the
directory whenever it exists. -/
theorem c2_sandbox_teardown (o : RunOracle) (test_plan : Option String) :
    ((generate_code_and_tests o test_plan).2).dirExists = false := by
  have hb := runBody_base_dir o test_plan
  have hsnd : (generate_code_and_tests o test_plan).2 = cleanup (runBody o test_plan).2 := rfl
  rw [hsnd]
  exact cleanup_dirExists_false (by rw [hb]; rfl)

/-- Claim C3, counterexample.  `execute_coding_agent_v2` called with
`mode = 'debug'` and `initial_code = None` against a benign stub world does
not fail at all: no exception is raised (let alone a precondition error),
the seed-code prompt branch is skipped silently, and the run completes with
passing tests — and the project directory is created before the seed-code
check is even reached. -/
theorem c3_counterexample :
    debugNoSeedRun.caught = none ∧ debugNoSeedRun.seedPromptUsed = false ∧
    (optLoop debugNoSeedRun.result).test_passed = true := by
  exact ⟨rfl, rfl, rfl⟩

/-- Claim C3, amended.  Debug mode without seed code is silently ignored,
never reported: for EVERY oracle world the seed-code prompt branch is
skipped (the run falls back to plain generation), the sandbox is created
first (`create_project()` is the first statement of the `try:` block,
before the `if initial_code and mode in ['refactor', 'debug']` check), and
in the benign world the run completes normally with one attempt. -/
theorem c3_amended_silently_ignored :
    (∀ o : RunOracle, (execute_coding_agent_v2 o "debug" none).seedPromptUsed = false) ∧
    debugNoSeedRun.caught = none ∧
    (optLoop debugNoSeedRun.result).attempts.length = 1 := by
  exact ⟨fun o => rfl, rfl, rfl⟩

/-- Claim C4, counterexample.  With the generation service unreachable
(every model call raises a connection error), `generate_code_and_tests`
does NOT terminate with a distinct terminal condition: it returns normally,
with the connection-error message itself as both the generated code and the
generated tests — and the failure IS fed into classification: the single
recorded attempt carries the error text as code, a failing pytest run, and
the classification `cannot_determine`. -/
theorem c4_counterexample :
    downRun.1 = .ok (connErrText, connErrText) ∧
    downLoop.attempts =
      [⟨0, connErrText, connErrText, "", "ERROR collecting", 1, some "cannot_determine"⟩] := by
  constructor <;> rfl

/-- Claim C4, amended.  `call_ollama_api` converts a connection failure into
the error message returned as ordinary response text (it raises nothing and
nothing retries it); the orchestrator therefore proceeds: the error text is
written to the sandbox as code, tests are generated and run against it, the
failing output is classified (`cannot_determine` here, ending the loop via
its `else` break), and the run returns the error text as its artifact
instead of reporting a generation-unavailable condition. -/
theorem c4_amended_error_text :
    call_ollama_api (.requestError "Connection refused") "coder" = .ok connErrText ∧
    downRun.1 = .ok (connErrText, connErrText) ∧
    downLoop.analysis_result = "cannot_determine" ∧
    downLoop.stop = .breakStop ∧ downLoop.repairs = 0 := by
  exact ⟨rfl, rfl, rfl, rfl, rfl⟩

/-- Claim C5, counterexample.  The classifier of
`fail/qwen3:30b-a3b.py` never returns `cannot_determine` and silently
defaults: any analyzer response not containing the substring `code` —
including the literal label `cannot_determine` itself — is returned as
`test_bug`. -/
theorem c5_counterexample :
    analyze_test_failure_30b "cannot_determine" = "test_bug" ∧
    analyze_test_failure_30b "unclear" = "test_bug" := by
  constructor <;> rfl

/-- Claim C5, amended.  The classifier of the `succes/` agents returns
exactly one of the three labels and maps any response whose
stripped-lowercased form is outside the two actionable labels to
`cannot_determine`; the `fail/qwen3:30b-a3b.py` variant instead returns only
`code_bug` or `test_bug`, defaulting every response without the substring
`code` to `test_bug`. -/
theorem c5_amended_classifiers (raw : String) :
    (analyze_test_failure raw = "code_bug" ∨ analyze_test_failure raw = "test_bug" ∨
      analyze_test_failure raw = "cannot_determine") ∧
    (analyze_test_failure_30b raw = "code_bug" ∨ analyze_test_failure_30b raw = "test_bug") ∧
    (pyLower (pyStrip raw) ≠ "code_bug" → pyLower (pyStrip raw) ≠ "test_bug" →
      analyze_test_failure raw = "cannot_determine") := by
  refine ⟨?_, ?_, ?_⟩
  · by_cases h1 : pyLower (pyStrip raw) = "code_bug"
    · left
      simp [analyze_test_failure, h1]
    · by_cases h2 : pyLower (pyStrip raw) = "test_bug"
      · right; left
        simp [analyze_test_failure, h1, h2]
      · right; right
        simp [analyze_test_failure, h1, h2]
  · cases hc : containsSub (pyLower (pyStrip raw)) "code"
    · right
      simp [analyze_test_failure_30b, hc]
    · left
      simp [analyze_test_failure_30b, hc]
  · intro h1 h2
    simp [analyze_test_failure, h1, h2]

/-- Claim C5, witness for the amended theorem at a concrete response. -/
theorem c5_amended_witness :
    analyze_test_failure "The test setup is flawed" = "cannot_determine" :=
  (c5_amended_classifiers "The test setup is flawed").2.2 (by decide) (by decide)

/-- Claim C6.  On any initialized manager (`current_dir` truthy, as after
`create_project()`), a command that exceeds its timeout makes `run_command`
return the normal failure triple `("", "Error: Command timed out.", 1)` —
non-zero status, descriptive stderr — rather than raising; and (scenario D)
a run whose pytest invocation times out records an ordinary failing attempt
whose output is fed to the classifier. -/
theorem c6_timeout_failure_result (s : PMState) (h : falsyDir s.current_dir = false) :
    run_command s .timedOut = .ok ("", "Error: Command timed out.", 1) ∧
    timeoutRun.attempts =
      [⟨0, "looping code", "tests", "", "Error: Command timed out.", 1,
        some "cannot_determine"⟩] := by
  constructor
  · simp [run_command, h, execResult]
  · rfl

/-- Claim C6, witness at the freshly created manager state. -/
theorem c6_timeout_witness :
    run_command readyPM .timedOut = .ok ("", "Error: Command timed out.", 1) ∧
    timeoutRun.attempts =
      [⟨0, "looping code", "tests", "", "Error: Command timed out.", 1,
        some "cannot_determine"⟩] :=
  c6_timeout_failure_result readyPM rfl

/-- Claim C7.  Scenario B: every test run fails and the classifier always
answers `code_bug`; with limits (2, 1) the loop performs exactly 2 repairs,
records exactly 3 attempts, and stops unsuccessfully via its `else` break
with `analysis_result = 'code_bug'` — the state in which the source reports
that it could not fix the code within the allowed attempts, i.e. the
code-repair budget is exhausted. -/
theorem c7_code_budget_exhausted :
    scenarioBRun.repairs = 2 ∧ scenarioBRun.attempts.length = 3 ∧
    scenarioBRun.test_passed = false ∧ scenarioBRun.analysis_result = "code_bug" ∧
    scenarioBRun.stop = .breakStop ∧
    analysis_message scenarioBRun =
      "I was unable to fix a bug in the code within the allowed attempts." := by
  exact ⟨rfl, rfl, rfl, rfl, rfl, rfl⟩

/-- Claim C8.  `cleanup` is idempotent and safe (it is a total function: it
raises nothing), and after any call the directory no longer exists.  The
hypothesis `base_dir ≠ ""` holds for every manager the source constructs
(`"temp_project"` / `"temp_coding_project"`); it is needed because
`cleanup`'s `if self.base_dir and ...` guard would skip an (unreachable,
since `os.path.exists('')` is false) state with an empty `base_dir`. -/
theorem c8_cleanup_idempotent (s : PMState) (h : s.base_dir ≠ "") :
    cleanup (cleanup s) = cleanup s ∧ (cleanup s).dirExists = false := by
  constructor
  · by_cases hc : (s.base_dir != "" && s.dirExists) = true
    · have h1 : cleanup s = { s with dirExists := false, current_dir := none, files := [] } := by
        unfold cleanup
        rw [if_pos hc]
      rw [h1]
      unfold cleanup
      simp
    · have h1 : cleanup s = s := by
        unfold cleanup
        rw [if_neg hc]
      rw [h1]
      exact h1
  · exact cleanup_dirExists_false (by simp [h])

/-- Claim C8, witness at a live manager state. -/
theorem c8_cleanup_witness :
    cleanup (cleanup liveState) = cleanup liveState ∧
    (cleanup liveState).dirExists = false :=
  c8_cleanup_idempotent liveState (by decide)

/-- Claim C9.  On any initialized manager, any exception raised while
launching or running the command (for example a missing executable) is
converted by `run_command`'s `except Exception` arm into the failure triple
(empty stdout, descriptive stderr, exit status 1) and is never propagated. -/
theorem c9_exec_exception_result (s : PMState) (h : falsyDir s.current_dir = false)
    (d : String) :
    run_command s (.execFailed d) =
      .ok ("", "Error: Failed to execute command. Details: " ++ d, 1) := by
  simp [run_command, h, execResult]

/-- Claim C9, witness at a concrete missing-executable failure. -/
theorem c9_exec_witness :
    run_command readyPM (.execFailed "[Errno 2] No such file or directory: 'pytest'") =
      .ok ("", "Error: Failed to execute command. Details: " ++
        "[Errno 2] No such file or directory: 'pytest'", 1) :=
  c9_exec_exception_result readyPM rfl "[Errno 2] No such file or directory: 'pytest'"

/-- Claim C10.  From any state in which the directory exists (as after
`create_project()` and any number of writes), `cleanup` clears
`current_dir`, so every subsequent `write_file`, `read_file`, or
`run_command` call raises the not-initialized `RuntimeError` (returning no
new state, hence touching nothing) until `create_project()` is called
again. -/
theorem c10_destroyed_unusable (s : PMState) (h : s.base_dir ≠ "")
    (hx : s.dirExists = true) (n c : String) (out : ExecOutcome) :
    (cleanup s).current_dir = none ∧
    write_file (cleanup s) n c = .error (.runtimeError notInitMsg) ∧
    read_file (cleanup s) n = .error (.runtimeError notInitMsg) ∧
    run_command (cleanup s) out = .error (.runtimeError notInitMsg) := by
  have hcond : (s.base_dir != "" && s.dirExists) = true := by
    simp [hx, h]
  have hcl : cleanup s = { s with dirExists := false, current_dir := none, files := [] } := by
    unfold cleanup
    rw [if_pos hcond]
  rw [hcl]
  refine ⟨rfl, ?_, ?_, ?_⟩ <;> simp [write_file, read_file, run_command, falsyDir]

/-- Claim C10, witness: create, destroy, then each operation at a concrete
input. -/
theorem c10_destroyed_witness :
    (cleanup liveState).current_dir = none ∧
    write_file (cleanup liveState) "generated_module.py" "print(2)" =
      .error (.runtimeError notInitMsg) ∧
    read_file (cleanup liveState) "generated_module.py" =
      .error (.runtimeError notInitMsg) ∧
    run_command (cleanup liveState) (.completed "ok" "" 0) =
      .error (.runtimeError notInitMsg) :=
  c10_destroyed_unusable liveState (by decide) rfl "generated_module.py" "print(2)"
    (.completed "ok" "" 0)

end Experiment2
